import Mathlib

/-!
Verification development for the spotify-shortcut repository.

The Go source is shallowly embedded: pure string helpers from the Go
standard library (`strings.Contains`, `strings.Split`, `strings.EqualFold`,
`strings.TrimPrefix`, `strings.ToLower`) are modelled over `List Char`
with structural (fuel-based, where needed) recursion so that every
definition is executable; the remote Spotify client is modelled as a
record of response functions, and the playback commander records the
remote commands it issues as an explicit action trace.
-/

namespace SpotifyShortcut

/-- Models Go `strings.HasPrefix` on rune lists: `isPrefixList pat l` is true
when `pat` is a prefix of `l`. -/
def isPrefixList : List Char → List Char → Bool
  | [], _ => true
  | _ :: _, [] => false
  | a :: as, b :: bs => a == b && isPrefixList as bs

/-- Models Go `strings.Contains` on rune lists: scans left to right for a
position where `pat` is a prefix of the remaining suffix. -/
def containsList (pat : List Char) : List Char → Bool
  | [] => pat.isEmpty
  | c :: rest => isPrefixList pat (c :: rest) || containsList pat rest

/-- Models Go `strings.Contains s pat`. -/
def strContains (s pat : String) : Bool :=
  containsList pat.data s.data

/-- Fuel-based core of Go `strings.Split`: splits around each leftmost
non-overlapping occurrence of `sep`.  The fuel only serves structural
termination; `splitOnStr` supplies enough fuel that the `0` case where
characters remain is never reached for non-empty `sep`. -/
def splitAuxF (sep : List Char) : Nat → List Char → List Char → List (List Char)
  | 0, acc, l => [acc.reverse ++ l]
  | _ + 1, acc, [] => [acc.reverse]
  | fuel + 1, acc, c :: rest =>
    if isPrefixList sep (c :: rest) then
      acc.reverse :: splitAuxF sep fuel [] (List.drop (sep.length - 1) rest)
    else
      splitAuxF sep fuel (c :: acc) rest

/-- Models Go `strings.Split s sep` for non-empty `sep`. -/
def splitOnStr (s sep : String) : List String :=
  (splitAuxF sep.data (s.data.length + 1) [] s.data).map String.mk

/-- Models Go `strings.EqualFold` (restricted to the simple one-to-one case
folding that `Char.toLower` provides). -/
def eqFold (s t : String) : Bool :=
  s.data.map Char.toLower == t.data.map Char.toLower

/-- Models Go `strings.ToLower`. -/
def toLowerStr (s : String) : String :=
  String.mk (s.data.map Char.toLower)

/-- Models Go `strings.TrimPrefix s pre`: drops `pre` from the front of `s`
when it is a prefix, and returns `s` unchanged otherwise. -/
def stripLeading (s pre : String) : String :=
  if isPrefixList pre.data s.data then String.mk (s.data.drop pre.data.length) else s

deriving instance DecidableEq for Except

/-- A playlist entry as returned by one page of `CurrentUsersPlaylists`
(`spotify.SimplePlaylist`: only the fields the program reads). -/
structure SimplePlaylist where
  id : String
  name : String
deriving DecidableEq, Repr

/-- A Spotify Connect device (`spotify.PlayerDevice`: only the fields the
program reads). -/
structure PlayerDevice where
  id : String
  name : String
  ty : String
  active : Bool
deriving DecidableEq, Repr

/-- Playlist metadata returned by `GetPlaylist` (`spotify.FullPlaylist`:
name and `Tracks.Total`). -/
structure Playlist where
  name : String
  total : Nat
deriving DecidableEq, Repr

/-- A playlist lister models `client.CurrentUsersPlaylists`: given a
zero-based offset it returns one page of playlists or an error. -/
def Lister := Nat → Except String (List SimplePlaylist)

/-- Embeds `extractPlaylistID` (playlist.go): pulls the playlist ID out of a
Spotify share link, or returns the input unchanged. -/
def extractPlaylistID (input : String) : String :=
  if strContains input "spotify.com/playlist/" then
    let parts := splitOnStr input "/playlist/"
    if parts.length > 1 then
      (splitOnStr (parts.getD 1 "") "?").headD ""
    else input
  else input

/-- Embeds the inner per-page loop of `resolvePlaylistIDQuiet`: first entry
whose name matches case-insensitively (returning its ID) or whose ID equals
the input (returning the input). -/
def findMatch (input : String) : List SimplePlaylist → Option String
  | [] => none
  | p :: rest =>
    if eqFold p.name input then some p.id
    else if p.id = input then some input
    else findMatch input rest

/-- Embeds the inner per-page loop of the narrated `resolvePlaylistID`,
additionally returning the progress line printed on a name match. -/
def findMatchN (input : String) : List SimplePlaylist → Option (String × List String)
  | [] => none
  | p :: rest =>
    if eqFold p.name input then
      some (p.id, ["Found playlist: \"" ++ p.name ++ "\" (ID: " ++ p.id ++ ")"])
    else if p.id = input then some (input, [])
    else findMatchN input rest

/-- Result of a resolver run: `result = none` models non-termination (fuel
exhausted while the lister keeps returning full pages); `calls` lists the
offsets requested from the lister, in order. -/
structure ResolveOut where
  result : Option (Except String String)
  calls : List Nat
deriving DecidableEq, Repr

/-- Result of the narrated resolver run: as `ResolveOut`, plus the progress
narration printed to stdout. -/
structure ResolveOutN where
  result : Option (Except String String)
  calls : List Nat
  output : List String
deriving DecidableEq, Repr

/-- Embeds the paging loop of `resolvePlaylistIDQuiet` (playlist.go): fetch
pages of 50 from the lister, return the first match, stop at the first page
shorter than 50 and fall back to the input. -/
def searchLoop (lister : Lister) (input : String) : Nat → Nat → ResolveOut
  | 0, _ => ⟨none, []⟩
  | fuel + 1, offset =>
    match lister offset with
    | .error e => ⟨some (.error ("failed to get playlists: " ++ e)), [offset]⟩
    | .ok page =>
      match findMatch input page with
      | some r => ⟨some (.ok r), [offset]⟩
      | none =>
        if page.length < 50 then ⟨some (.ok input), [offset]⟩
        else
          let res := searchLoop lister input fuel (offset + 50)
          ⟨res.result, offset :: res.calls⟩

/-- Embeds the paging loop of the narrated `resolvePlaylistID`, which is the
same loop with progress narration collected on the side. -/
def searchLoopN (lister : Lister) (input : String) : Nat → Nat → ResolveOutN
  | 0, _ => ⟨none, [], []⟩
  | fuel + 1, offset =>
    match lister offset with
    | .error e => ⟨some (.error ("failed to get playlists: " ++ e)), [offset], []⟩
    | .ok page =>
      match findMatchN input page with
      | some r => ⟨some (.ok r.1), [offset], r.2⟩
      | none =>
        if page.length < 50 then
          ⟨some (.ok input), [offset],
            ["No playlist found with name \"" ++ input ++ "\", trying as ID..."]⟩
        else
          let res := searchLoopN lister input fuel (offset + 50)
          ⟨res.result, offset :: res.calls, res.output⟩

/-- Embeds `resolvePlaylistIDQuiet` (playlist.go): link form, then the
22-character bare-ID heuristic, then the paged name search. -/
def resolvePlaylistIDQuiet (fuel : Nat) (lister : Lister) (input : String) : ResolveOut :=
  if strContains input "spotify.com/playlist/" then
    ⟨some (.ok (extractPlaylistID input)), []⟩
  else if input.length == 22 && !(strContains input " ") then
    ⟨some (.ok input), []⟩
  else searchLoop lister input fuel 0

/-- Embeds the narrated `resolvePlaylistID` (playlist.go): identical matching
logic, with progress narration printed to stdout. -/
def resolvePlaylistID (fuel : Nat) (lister : Lister) (input : String) : ResolveOutN :=
  if strContains input "spotify.com/playlist/" then
    ⟨some (.ok (extractPlaylistID input)), [], []⟩
  else if input.length == 22 && !(strContains input " ") then
    ⟨some (.ok input), [], []⟩
  else
    let res := searchLoopN lister input fuel 0
    ⟨res.result, res.calls, ("Searching for playlist: \"" ++ input ++ "\"...") :: res.output⟩

/-- The hint-match condition of the device-selection loops:
`deviceName != "" && (device.Name == deviceName || string(device.ID) == deviceName)`. -/
def hintMatches (deviceName : String) (d : PlayerDevice) : Bool :=
  deviceName != "" && (d.name == deviceName || d.id == deviceName)

/-- Embeds the first device loop of `playPlaylist` (player.go): first device
matching the hint, with `break` on the first hit. -/
def findByHint (deviceName : String) : List PlayerDevice → Option PlayerDevice
  | [] => none
  | d :: rest => if hintMatches deviceName d then some d else findByHint deviceName rest

/-- Embeds the device loop of the CLI `handlePlayPlaylist` (main.go), which
has no `break`: the assignment is repeated, so the last matching device wins. -/
def findByHintLast (deviceName : String) (devices : List PlayerDevice) : Option PlayerDevice :=
  devices.foldl (fun acc d => if hintMatches deviceName d then some d else acc) none

/-- Embeds the fallback loop shared by both variants: first device with the
active flag set, with `break` on the first hit. -/
def findActive : List PlayerDevice → Option PlayerDevice
  | [] => none
  | d :: rest => if d.active then some d else findActive rest

/-- Embeds the whole device-selection sequence of `playPlaylist` on a
non-empty device list `d0 :: rest`: hint match, else first active, else the
first device (`&devices[0]`). -/
def selectDevice (d0 : PlayerDevice) (rest : List PlayerDevice) (deviceName : String) : PlayerDevice :=
  match findByHint deviceName (d0 :: rest) with
  | some d => d
  | none =>
    match findActive (d0 :: rest) with
    | some d => d
    | none => d0

/-- Embeds the device-selection sequence of the CLI `handlePlayPlaylist`:
same fallbacks, but the hint stage keeps the last match. -/
def selectDeviceCLI (d0 : PlayerDevice) (rest : List PlayerDevice) (deviceName : String) : PlayerDevice :=
  match findByHintLast deviceName (d0 :: rest) with
  | some d => d
  | none =>
    match findActive (d0 :: rest) with
    | some d => d
    | none => d0

/-- The remote Spotify client, modelled as a record of response behaviours
for the operations `playPlaylist` uses. -/
structure Client where
  devices : Except String (List PlayerDevice)
  lister : Lister
  getPlaylist : String → Except String Playlist
  playOpt : String → String → Nat → Except String Unit
  shuffleRes : Except String Unit

/-- One remote command issued by the playback commander, recorded in order. -/
inductive Action where
  | getDevices
  | listerCall (offset : Nat)
  | getPlaylistInfo (id : String)
  | playOpt (deviceId uri : String) (position : Nat)
  | sleep
  | setShuffle
deriving DecidableEq, Repr

/-- Observable outcome of one `playPlaylist` invocation.  `panic` models a Go
runtime panic (`rand.Intn` with a non-positive argument); `diverge` models
the resolver paging forever. -/
inductive Outcome where
  | ok (msg : String)
  | err (msg : String)
  | panic (msg : String)
  | diverge
deriving DecidableEq, Repr

/-- Embeds `playPlaylist` (player.go).  `client = none` models a nil
`spotifyClient`; `rnd` is the oracle for `rand.Intn trackCount`, realised as
`rnd % trackCount` (Go panics when `trackCount <= 0`).  The second component
records the remote commands issued, in order. -/
def playPlaylist (client : Option Client) (deviceName playlistInput : String)
    (shuffle : Bool) (fuel rnd : Nat) : Outcome × List Action :=
  match client with
  | none => (.err "Spotify not authenticated. Visit /auth to authenticate", [])
  | some c =>
    match c.devices with
    | .error e => (.err ("failed to get devices: " ++ e), [.getDevices])
    | .ok [] => (.err "no Spotify Connect devices found", [.getDevices])
    | .ok (d0 :: rest) =>
      let target := selectDevice d0 rest deviceName
      let r := resolvePlaylistIDQuiet fuel c.lister playlistInput
      let tr := Action.getDevices :: r.calls.map Action.listerCall
      match r.result with
      | none => (.diverge, tr)
      | some (.error e) => (.err ("failed to resolve playlist: " ++ e), tr)
      | some (.ok pid) =>
        match c.getPlaylist pid with
        | .error e => (.err ("failed to get playlist: " ++ e), tr ++ [.getPlaylistInfo pid])
        | .ok pl =>
          let uri := "spotify:playlist:" ++ pid
          let tr2 := tr ++ [.getPlaylistInfo pid]
          if shuffle then
            match pl.total with
            | 0 => (.panic "invalid argument to Intn", tr2)
            | n + 1 =>
              let randomOffset := rnd % (n + 1)
              match c.playOpt target.id uri randomOffset with
              | .error e =>
                (.err ("failed to start playback: " ++ e), tr2 ++ [.playOpt target.id uri randomOffset])
              | .ok _ =>
                (.ok ("Now playing \"" ++ pl.name ++ "\" on " ++ target.name ++
                    " (shuffle enabled, starting at track " ++ toString (randomOffset + 1) ++
                    " of " ++ toString (n + 1) ++ ")"),
                  tr2 ++ [.playOpt target.id uri randomOffset, .sleep, .setShuffle])
          else
            match c.playOpt target.id uri 0 with
            | .error e => (.err ("failed to start playback: " ++ e), tr2 ++ [.playOpt target.id uri 0])
            | .ok _ =>
              (.ok ("Now playing \"" ++ pl.name ++ "\" on " ++ target.name ++ " (starting at track 1)"),
                tr2 ++ [.playOpt target.id uri 0])

/-- The inputs of `handlePlayRequest` that the handler reads from the HTTP
request: the `token`, `device`, `playlist` and `shuffle` query parameters and
the `Authorization` header. -/
structure PlayRequest where
  queryToken : String
  authHeader : String
  device : String
  playlist : String
  shuffleStr : String
deriving DecidableEq, Repr

/-- The observable HTTP response of a handler: status code and the JSON
envelope fields. -/
structure HttpResponse where
  status : Nat
  success : Bool
  message : String
  error : String
deriving DecidableEq, Repr

/-- Embeds the token extraction of `handlePlayRequest` (server.go): the
`token` query parameter, falling back to the `Authorization` header with a
`Bearer ` prefix stripped. -/
def requestToken (r : PlayRequest) : String :=
  let token := r.queryToken
  if token = "" then stripLeading r.authHeader "Bearer " else token

/-- Embeds `handlePlayRequest` (server.go): 401 on a token mismatch, 400 on a
missing playlist parameter, then delegate to `playPlaylist` (abstracted here
as `play`), mapping an error to 500 and success to 200. -/
def handlePlayRequest (apiAccessToken : String) (r : PlayRequest)
    (play : String → String → Bool → Except String String) : HttpResponse :=
  if requestToken r ≠ apiAccessToken then
    ⟨401, false, "", "Invalid or missing access token"⟩
  else if r.playlist = "" then
    ⟨400, false, "", "playlist parameter is required"⟩
  else
    match play r.device r.playlist (toLowerStr r.shuffleStr == "true") with
    | .error e => ⟨500, false, "", e⟩
    | .ok m => ⟨200, true, m, ""⟩

/-- Spec-side predicate (claims C6/C1 wording): the entry's name equals the
input case-insensitively, or its raw ID equals the input exactly. -/
def nameOrId (input : String) (p : SimplePlaylist) : Bool :=
  eqFold p.name input || p.id == input

/-- Spec-side description (claim C5 wording): the substring of the input
after the first occurrence of "/playlist/" and before the first following
"?" (or up to the end of the string when no "?" follows). -/
def afterFirstAux (pat : List Char) : List Char → Option (List Char)
  | [] => none
  | c :: rest =>
    if isPrefixList pat (c :: rest) then some (List.drop (pat.length - 1) rest)
    else afterFirstAux pat rest

/-- Spec-side definition (claim C5 wording), built on `afterFirstAux`. -/
def specLinkSegment (input : String) : String :=
  match afterFirstAux "/playlist/".data input.data with
  | some t => String.mk (t.takeWhile (fun c => !(c == '?')))
  | none => input

/-- Spec-side description (claims C6/C7 wording): the lister serves exactly
these pages at consecutive offsets 50 apart. -/
def ListerPages (lister : Lister) : Nat → List (List SimplePlaylist) → Prop
  | _, [] => True
  | offset, p :: rest => lister offset = .ok p ∧ ListerPages lister (offset + 50) rest

/-- Spec-side description (claim C6 wording): a complete page run — every
page before the last is full (length at least 50) and the last page is
short, signalling the end of the collection. -/
def PageRun : List (List SimplePlaylist) → Prop
  | [] => False
  | [p] => p.length < 50
  | p :: rest => 50 ≤ p.length ∧ PageRun rest

/-- Spec-side description (claim C7 wording): a run of full pages none of
which contains a match for the input. -/
def CleanFullPages (input : String) : List (List SimplePlaylist) → Prop
  | [] => True
  | p :: rest => findMatch input p = none ∧ 50 ≤ p.length ∧ CleanFullPages input rest

theorem findMatch_eq_findMatchN (input : String) (l : List SimplePlaylist) :
    findMatch input l = (findMatchN input l).map Prod.fst := by
  induction l with
  | nil => rfl
  | cons p rest ih =>
    simp only [findMatch, findMatchN]
    by_cases h1 : eqFold p.name input
    · simp [h1]
    · by_cases h2 : p.id = input <;> simp [h1, h2, ih]

theorem searchLoopN_agrees (lister : Lister) (input : String) :
    ∀ (fuel offset : Nat),
      (searchLoopN lister input fuel offset).result = (searchLoop lister input fuel offset).result ∧
      (searchLoopN lister input fuel offset).calls = (searchLoop lister input fuel offset).calls := by
  intro fuel
  induction fuel with
  | zero => intro offset; exact ⟨rfl, rfl⟩
  | succ f ih =>
    intro offset
    cases hl : lister offset with
    | error e => simp [searchLoop, searchLoopN, hl]
    | ok page =>
      simp only [searchLoop, searchLoopN, hl]
      rw [findMatch_eq_findMatchN]
      cases h : findMatchN input page with
      | some r => simp
      | none =>
        simp only [Option.map_none']
        by_cases hlen : page.length < 50
        · simp [hlen]
        · simp [hlen, ih (offset + 50)]

/-- C3: the narrated resolver variant and the silent resolver variant return
the same resolved ID or the same error (and make the same lister calls) on
every input and every lister behaviour; they differ only in the narration
side channel. -/
theorem resolve_variants_agree (fuel : Nat) (lister : Lister) (input : String) :
    (resolvePlaylistID fuel lister input).result = (resolvePlaylistIDQuiet fuel lister input).result ∧
    (resolvePlaylistID fuel lister input).calls = (resolvePlaylistIDQuiet fuel lister input).calls := by
  simp only [resolvePlaylistID, resolvePlaylistIDQuiet]
  by_cases h1 : strContains input "spotify.com/playlist/"
  · simp [h1]
  · by_cases h2 : (input.length == 22 && !(strContains input " ")) = true
    · simp [h1, h2]
    · simp only [h1, h2, Bool.false_eq_true, if_false]
      exact searchLoopN_agrees lister input fuel 0

/-- C4: an input that does not contain the playlist-link marker, is exactly
22 characters long and contains no space is returned unchanged, for every
lister and fuel, and the lister is never invoked (the call trace is empty). -/
theorem resolveQuiet_bareID (input : String) (lister : Lister) (fuel : Nat)
    (hlink : strContains input "spotify.com/playlist/" = false)
    (hlen : input.length = 22) (hsp : strContains input " " = false) :
    resolvePlaylistIDQuiet fuel lister input = ⟨some (.ok input), []⟩ := by
  simp [resolvePlaylistIDQuiet, hlink, hlen, hsp]

/-- C4 witness: a concrete 22-character, space-free input is returned
unchanged with no lister call, even though the lister could match it. -/
theorem resolveQuiet_bareID_witness :
    strContains "0123456789abcdefghijkl" "spotify.com/playlist/" = false ∧
    ("0123456789abcdefghijkl" : String).length = 22 ∧
    strContains "0123456789abcdefghijkl" " " = false ∧
    resolvePlaylistIDQuiet 5 (fun _ => .ok [⟨"realid", "0123456789abcdefghijkl"⟩])
      "0123456789abcdefghijkl" = ⟨some (.ok "0123456789abcdefghijkl"), []⟩ :=
  ⟨by decide, by decide, by decide,
    resolveQuiet_bareID "0123456789abcdefghijkl" (fun _ => .ok [⟨"realid", "0123456789abcdefghijkl"⟩]) 5
      (by decide) (by decide) (by decide)⟩

theorem findByHint_eq_find? (n : String) (l : List PlayerDevice) :
    findByHint n l = l.find? (hintMatches n) := by
  induction l with
  | nil => rfl
  | cons d rest ih =>
    simp only [findByHint]
    by_cases h : hintMatches n d
    · rw [List.find?_cons_of_pos _ h]
      simp [h]
    · rw [List.find?_cons_of_neg _ (by simpa using h)]
      simp [h, ih]

theorem findActive_eq_find? (l : List PlayerDevice) :
    findActive l = l.find? (fun d => d.active) := by
  induction l with
  | nil => rfl
  | cons d rest ih =>
    simp only [findActive]
    by_cases h : d.active
    · rw [List.find?_cons_of_pos _ (by simpa using h)]
      simp [h]
    · rw [List.find?_cons_of_neg _ (by simpa using h)]
      simp [h, ih]

theorem foldl_hint_eq_reverse_find? (n : String) :
    ∀ (l : List PlayerDevice) (acc : Option PlayerDevice),
      l.foldl (fun acc d => if hintMatches n d then some d else acc) acc =
        (l.reverse.find? (hintMatches n)).or acc := by
  intro l
  induction l with
  | nil => intro acc; simp
  | cons d rest ih =>
    intro acc
    simp only [List.foldl_cons, List.reverse_cons]
    rw [ih, List.find?_append]
    cases h : rest.reverse.find? (hintMatches n) with
    | some x => simp [Option.or]
    | none =>
      by_cases hm : hintMatches n d
      · simp [Option.or, List.find?, hm]
      · simp [Option.or, List.find?, hm]

theorem findByHintLast_eq_reverse_find? (n : String) (l : List PlayerDevice) :
    findByHintLast n l = l.reverse.find? (hintMatches n) := by
  simp [findByHintLast, foldl_hint_eq_reverse_find?]

/-- C1 counterexample: with two devices both named "A" and hint "A", the CLI
device-selection loop of `handlePlayPlaylist` (which has no `break`) returns
the second device, not the first matching device as the claim states. -/
theorem selectDeviceCLI_last_cex :
    selectDeviceCLI ⟨"device1", "A", "t", false⟩ [⟨"device2", "A", "t", false⟩] "A" =
        ⟨"device2", "A", "t", false⟩ ∧
      (⟨"device2", "A", "t", false⟩ : PlayerDevice) ≠ ⟨"device1", "A", "t", false⟩ ∧
      selectDevice ⟨"device1", "A", "t", false⟩ [⟨"device2", "A", "t", false⟩] "A" =
        ⟨"device1", "A", "t", false⟩ := by decide

/-- C1 (amended): the commander's selector (`playPlaylist`) returns the
first device whose name or ID equals the non-empty hint, while the CLI
`handlePlayPlaylist` selector returns the last such device; when no device
matches the hint (or the hint is empty) both return the first device with
its active flag set, and when none is active the first device of the list. -/
theorem selectDevice_spec (d0 : PlayerDevice) (rest : List PlayerDevice) (hint : String) :
    selectDevice d0 rest hint =
        ((d0 :: rest).find? (hintMatches hint)).getD
          (((d0 :: rest).find? (fun d => d.active)).getD d0) ∧
      selectDeviceCLI d0 rest hint =
        ((d0 :: rest).reverse.find? (hintMatches hint)).getD
          (((d0 :: rest).find? (fun d => d.active)).getD d0) := by
  constructor
  · simp only [selectDevice, findByHint_eq_find?, findActive_eq_find?]
    cases (d0 :: rest).find? (hintMatches hint) with
    | some d => simp
    | none =>
      cases (d0 :: rest).find? (fun d => d.active) with
      | some d => simp
      | none => simp
  · simp only [selectDeviceCLI, findByHintLast_eq_reverse_find?, findActive_eq_find?]
    cases (d0 :: rest).reverse.find? (hintMatches hint) with
    | some d => simp
    | none =>
      cases (d0 :: rest).find? (fun d => d.active) with
      | some d => simp
      | none => simp

theorem splitAuxF_ne_nil (sep : List Char) :
    ∀ (fuel : Nat) (acc l : List Char), splitAuxF sep fuel acc l ≠ [] := by
  intro fuel
  induction fuel with
  | zero => intro acc l; simp [splitAuxF]
  | succ f ih =>
    intro acc l
    cases l with
    | nil => simp [splitAuxF]
    | cons c rest =>
      simp only [splitAuxF]
      split
      · simp
      · exact ih _ _

theorem splitAuxF_single_headD (q : Char) :
    ∀ (fuel : Nat) (acc l : List Char), l.length ≤ fuel →
      (splitAuxF [q] fuel acc l).headD [] =
        acc.reverse ++ l.takeWhile (fun c => !(c == q)) := by
  intro fuel
  induction fuel with
  | zero =>
    intro acc l h
    have hl : l = [] := List.eq_nil_of_length_eq_zero (Nat.le_zero.mp h)
    subst hl
    simp [splitAuxF]
  | succ f ih =>
    intro acc l h
    cases l with
    | nil => simp [splitAuxF]
    | cons c rest =>
      simp only [splitAuxF, isPrefixList, List.takeWhile]
      by_cases hc : q = c
      · subst hc
        simp
      · have hbeq : (q == c) = false := by simpa using hc
        have hbeq2 : (c == q) = false := by simpa using Ne.symm hc
        simp only [hbeq, Bool.false_and, Bool.false_or, Bool.false_eq_true, if_false, hbeq2,
          Bool.not_false, if_true, cond_true]
        rw [ih (c :: acc) rest (by simpa using h)]
        simp

theorem splitOnStr_question_headD (b : String) :
    (splitOnStr b "?").headD "" = String.mk (b.data.takeWhile (fun c => !(c == '?'))) := by
  unfold splitOnStr
  have hne := splitAuxF_ne_nil "?".data (b.data.length + 1) [] b.data
  have hhead := splitAuxF_single_headD '?' (b.data.length + 1) [] b.data (Nat.le_succ _)
  cases hsp : splitAuxF "?".data (b.data.length + 1) [] b.data with
  | nil => exact absurd hsp hne
  | cons x xs =>
    have hq : ("?".data : List Char) = ['?'] := rfl
    rw [hq] at hsp
    rw [hsp] at hhead
    simp only [List.headD_cons, List.reverse_nil, List.nil_append] at hhead
    simp [hsp, hhead]

/-- C5 counterexample: for an input in which "/playlist/" occurs twice, the
resolver stops at the second occurrence instead of returning everything
between the first "/playlist/" and the end of the string as the claim
states. -/
theorem resolveQuiet_link_cex :
    resolvePlaylistIDQuiet 1 (fun _ => .ok []) "spotify.com/playlist/abc/playlist/def" =
        ⟨some (.ok "abc"), []⟩ ∧
      specLinkSegment "spotify.com/playlist/abc/playlist/def" = "abc/playlist/def" ∧
      ("abc" : String) ≠ "abc/playlist/def" := by decide

/-- C5 (amended): for every input containing the playlist-link marker in
which "/playlist/" occurs exactly once (its split on "/playlist/" has
exactly two parts), the resolver succeeds without any lister call and
returns the part after "/playlist/" truncated at the first "?" (or up to
the end when no "?" follows); when "/playlist/" occurs more than once the
result additionally stops at the next "/playlist/" occurrence. -/
theorem resolveQuiet_link (input a b : String) (lister : Lister) (fuel : Nat)
    (hmark : strContains input "spotify.com/playlist/" = true)
    (hsplit : splitOnStr input "/playlist/" = [a, b]) :
    resolvePlaylistIDQuiet fuel lister input =
      ⟨some (.ok (String.mk (b.data.takeWhile (fun c => !(c == '?'))))), []⟩ := by
  simp only [resolvePlaylistIDQuiet, extractPlaylistID, hmark, if_true, hsplit]
  rw [← splitOnStr_question_headD b]
  simp

/-- C5 witness: the canonical share-link example resolves to the raw ID with
no lister call. -/
theorem resolveQuiet_link_witness :
    strContains "https://open.spotify.com/playlist/37i9dQZF1DXcBWIGoYBM5M?si=abc123"
        "spotify.com/playlist/" = true ∧
    splitOnStr "https://open.spotify.com/playlist/37i9dQZF1DXcBWIGoYBM5M?si=abc123" "/playlist/" =
        ["https://open.spotify.com", "37i9dQZF1DXcBWIGoYBM5M?si=abc123"] ∧
    resolvePlaylistIDQuiet 3 (fun _ => .error "never called")
        "https://open.spotify.com/playlist/37i9dQZF1DXcBWIGoYBM5M?si=abc123" =
      ⟨some (.ok "37i9dQZF1DXcBWIGoYBM5M"), []⟩ :=
  ⟨by decide, by decide,
    (resolveQuiet_link "https://open.spotify.com/playlist/37i9dQZF1DXcBWIGoYBM5M?si=abc123"
        "https://open.spotify.com" "37i9dQZF1DXcBWIGoYBM5M?si=abc123"
        (fun _ => .error "never called") 3 (by decide) (by decide)).trans (by decide)⟩

theorem findMatch_eq_find? (input : String) (l : List SimplePlaylist) :
    findMatch input l = (l.find? (nameOrId input)).map (fun p => p.id) := by
  induction l with
  | nil => rfl
  | cons p rest ih =>
    simp only [findMatch]
    by_cases h1 : eqFold p.name input
    · rw [List.find?_cons_of_pos _ (by simp [nameOrId, h1])]
      simp [h1]
    · by_cases h2 : p.id = input
      · rw [List.find?_cons_of_pos _ (by simp [nameOrId, h2])]
        simp [h1, h2]
      · rw [List.find?_cons_of_neg _ (by simp [nameOrId, h1, h2])]
        simp [h1, h2, ih]

theorem searchLoop_pages (lister : Lister) (input : String) :
    ∀ (pages : List (List SimplePlaylist)) (offset fuel : Nat),
      PageRun pages → ListerPages lister offset pages → pages.length ≤ fuel →
      (searchLoop lister input fuel offset).result =
        some (.ok (((pages.flatten.find? (nameOrId input)).map (fun p => p.id)).getD input)) := by
  intro pages
  induction pages with
  | nil => intro offset fuel hrun; exact absurd hrun (by simp [PageRun])
  | cons p rest ih =>
    intro offset fuel hrun hlist hfuel
    obtain ⟨hp, hlist2⟩ := hlist
    cases fuel with
    | zero => simp at hfuel
    | succ f =>
      simp only [searchLoop, hp]
      cases hm : findMatch input p with
      | some r =>
        rw [findMatch_eq_find?] at hm
        cases hf : p.find? (nameOrId input) with
        | none => rw [hf] at hm; simp at hm
        | some q =>
          rw [hf] at hm
          simp only [Option.map_some', Option.some.injEq] at hm
          simp [List.find?_append, hf, Option.or, hm]
      | none =>
        rw [findMatch_eq_find?] at hm
        have hfnone : p.find? (nameOrId input) = none := by
          cases hf : p.find? (nameOrId input) with
          | none => rfl
          | some q => rw [hf] at hm; simp at hm
        cases rest with
        | nil =>
          have hlen : p.length < 50 := hrun
          simp [findMatch_eq_find?, hfnone, hlen]
        | cons q rest2 =>
          obtain ⟨hfull, hrun2⟩ := hrun
          have hnlt : ¬(p.length < 50) := by omega
          simp only [findMatch_eq_find?, hfnone, Option.map_none', hnlt, if_false]
          rw [ih (offset + 50) f hrun2 hlist2 (by simpa using hfuel)]
          simp [List.find?_append, hfnone, Option.or]

/-- C6: for an input that is neither link-form nor bare-ID-form, when the
lister serves a complete page run (full pages of at least 50, then a short
last page) at offsets 0, 50, 100, ..., the resolver returns the ID of the
first entry in page-then-entry encounter order whose name matches the input
case-insensitively or whose ID equals it exactly, and returns the original
input with no error when no page contains a match. -/
theorem resolveQuiet_nameSearch (input : String) (lister : Lister)
    (pages : List (List SimplePlaylist)) (fuel : Nat)
    (hlink : strContains input "spotify.com/playlist/" = false)
    (hbare : (input.length == 22 && !(strContains input " ")) = false)
    (hrun : PageRun pages) (hlist : ListerPages lister 0 pages)
    (hfuel : pages.length ≤ fuel) :
    (resolvePlaylistIDQuiet fuel lister input).result =
      some (.ok (((pages.flatten.find? (nameOrId input)).map (fun p => p.id)).getD input)) := by
  simp only [resolvePlaylistIDQuiet, hlink, hbare, Bool.false_eq_true, if_false]
  exact searchLoop_pages lister input pages 0 fuel hrun hlist hfuel

/-- C6 witness: a single short page containing a case-insensitive name match
resolves to that entry's ID. -/
theorem resolveQuiet_nameSearch_witness :
    strContains "my awesome playlist" "spotify.com/playlist/" = false ∧
    (("my awesome playlist" : String).length == 22 &&
        !(strContains "my awesome playlist" " ")) = false ∧
    PageRun [[⟨"found123playlistid00", "My Awesome Playlist"⟩]] ∧
    ListerPages (fun _ => .ok [⟨"found123playlistid00", "My Awesome Playlist"⟩]) 0
        [[⟨"found123playlistid00", "My Awesome Playlist"⟩]] ∧
    (resolvePlaylistIDQuiet 1 (fun _ => .ok [⟨"found123playlistid00", "My Awesome Playlist"⟩])
        "my awesome playlist").result = some (.ok "found123playlistid00") :=
  ⟨by decide, by decide, by unfold PageRun; decide, by unfold ListerPages; exact ⟨rfl, trivial⟩,
    (resolveQuiet_nameSearch "my awesome playlist"
        (fun _ => .ok [⟨"found123playlistid00", "My Awesome Playlist"⟩])
        [[⟨"found123playlistid00", "My Awesome Playlist"⟩]] 1 (by decide) (by decide)
        (by unfold PageRun; decide) (by unfold ListerPages; exact ⟨rfl, trivial⟩)
        (by decide)).trans (by decide)⟩

theorem range_map_offset (offset n : Nat) :
    (List.range (n + 1)).map (fun i => offset + 50 * i) =
      offset :: (List.range n).map (fun i => offset + 50 + 50 * i) := by
  rw [List.range_succ_eq_map]
  simp only [List.map_cons, Nat.mul_zero, Nat.add_zero, List.map_map]
  refine congrArg _ ?_
  apply List.map_congr_left
  intro i _
  simp only [Function.comp]
  omega

theorem searchLoop_error (lister : Lister) (input e : String) :
    ∀ (pages : List (List SimplePlaylist)) (offset fuel : Nat),
      CleanFullPages input pages → ListerPages lister offset pages →
      lister (offset + 50 * pages.length) = .error e → pages.length < fuel →
      searchLoop lister input fuel offset =
        ⟨some (.error ("failed to get playlists: " ++ e)),
          (List.range (pages.length + 1)).map (fun i => offset + 50 * i)⟩ := by
  intro pages
  induction pages with
  | nil =>
    intro offset fuel _ _ herr hfuel
    cases fuel with
    | zero => simp at hfuel
    | succ f =>
      simp only [List.length_nil, Nat.mul_zero, Nat.add_zero] at herr
      simp [searchLoop, herr, List.range_succ]
  | cons p rest ih =>
    intro offset fuel hclean hlist herr hfuel
    obtain ⟨hm, hfull, hclean2⟩ := hclean
    obtain ⟨hp, hlist2⟩ := hlist
    cases fuel with
    | zero => simp at hfuel
    | succ f =>
      simp only [searchLoop, hp, hm]
      have hnlt : ¬(p.length < 50) := by omega
      simp only [hnlt, if_false]
      have herr2 : lister (offset + 50 + 50 * rest.length) = .error e := by
        rw [show offset + 50 + 50 * rest.length = offset + 50 * (p :: rest).length by
          simp [List.length_cons]; ring]
        exact herr
      rw [ih (offset + 50) f hclean2 hlist2 herr2 (by simpa using hfuel)]
      simp only [List.length_cons]
      rw [range_map_offset offset (rest.length + 1)]

/-- C7: for an input that reaches the name-search stage, when the lister
serves some full matchless pages and then fails, the resolver surfaces that
error immediately: no fallback-to-input result, no page requested beyond the
failing one, and no partial match used. -/
theorem resolveQuiet_listerError (input e : String) (lister : Lister)
    (pages : List (List SimplePlaylist)) (fuel : Nat)
    (hlink : strContains input "spotify.com/playlist/" = false)
    (hbare : (input.length == 22 && !(strContains input " ")) = false)
    (hclean : CleanFullPages input pages) (hlist : ListerPages lister 0 pages)
    (herr : lister (50 * pages.length) = .error e) (hfuel : pages.length < fuel) :
    resolvePlaylistIDQuiet fuel lister input =
      ⟨some (.error ("failed to get playlists: " ++ e)),
        (List.range (pages.length + 1)).map (fun i => 50 * i)⟩ := by
  simp only [resolvePlaylistIDQuiet, hlink, hbare, Bool.false_eq_true, if_false]
  have h := searchLoop_error lister input e pages 0 fuel hclean hlist (by simpa using herr) hfuel
  simpa using h

/-- C7 witness: a lister that fails on the very first page aborts resolution
with that error after exactly one page request. -/
theorem resolveQuiet_listerError_witness :
    strContains "some name" "spotify.com/playlist/" = false ∧
    (("some name" : String).length == 22 && !(strContains "some name" " ")) = false ∧
    resolvePlaylistIDQuiet 1 (fun _ => .error "boom") "some name" =
      ⟨some (.error "failed to get playlists: boom"), [0]⟩ :=
  ⟨by decide, by decide,
    (resolveQuiet_listerError "some name" "boom" (fun _ => .error "boom") [] 1 (by decide)
        (by decide) (by unfold CleanFullPages; trivial) (by unfold ListerPages; trivial) rfl
        (by decide)).trans (by decide)⟩

/-- C8: an authenticated play invocation whose fetched device list is empty
fails with the "no devices" error, and the only remote command issued is the
device fetch itself — no playlist resolution, metadata fetch or playback
command is performed. -/
theorem play_noDevices (c : Client) (dn pi : String) (sh : Bool) (fuel rnd : Nat)
    (hdev : c.devices = .ok []) :
    playPlaylist (some c) dn pi sh fuel rnd =
      (.err "no Spotify Connect devices found", [.getDevices]) := by
  simp [playPlaylist, hdev]

/-- C8 witness: a concrete authenticated client with no devices. -/
theorem play_noDevices_witness :
    (⟨.ok [], fun _ => .ok [], fun _ => .ok ⟨"P", 5⟩, fun _ _ _ => .ok (), .ok ()⟩ : Client).devices
        = .ok [] ∧
    playPlaylist (some ⟨.ok [], fun _ => .ok [], fun _ => .ok ⟨"P", 5⟩, fun _ _ _ => .ok (), .ok ()⟩)
        "Speaker" "My List" true 5 7 =
      (.err "no Spotify Connect devices found", [.getDevices]) :=
  ⟨rfl, play_noDevices ⟨.ok [], fun _ => .ok [], fun _ => .ok ⟨"P", 5⟩, fun _ _ _ => .ok (), .ok ()⟩
      "Speaker" "My List" true 5 7 rfl⟩

/-- C9: a successful shuffle play against a playlist with track count n + 1
picks its offset as a residue modulo n + 1 — hence in the interval from 0 to
n inclusive — and reports the playlist name, the device name, the 1-based
track position offset + 1, and the total track count in its status
message. -/
theorem playShuffle_success (c : Client) (dn pi pid : String) (pl : Playlist)
    (fuel rnd n : Nat) (d0 : PlayerDevice) (rest : List PlayerDevice)
    (hdev : c.devices = .ok (d0 :: rest))
    (hres : (resolvePlaylistIDQuiet fuel c.lister pi).result = some (.ok pid))
    (hget : c.getPlaylist pid = .ok pl)
    (htot : pl.total = n + 1)
    (hplay : c.playOpt (selectDevice d0 rest dn).id ("spotify:playlist:" ++ pid)
        (rnd % (n + 1)) = .ok ()) :
    rnd % (n + 1) < n + 1 ∧
    (playPlaylist (some c) dn pi true fuel rnd).fst =
      .ok ("Now playing \"" ++ pl.name ++ "\" on " ++ (selectDevice d0 rest dn).name ++
        " (shuffle enabled, starting at track " ++ toString (rnd % (n + 1) + 1) ++
        " of " ++ toString (n + 1) ++ ")") := by
  refine ⟨Nat.mod_lt _ (Nat.succ_pos n), ?_⟩
  simp [playPlaylist, hdev, hres, hget, htot, hplay]

/-- C9 witness: a 10-track playlist with random oracle 3 starts at track 4
of 10 on the selected device. -/
theorem playShuffle_success_witness :
    3 % 10 < 10 ∧
    (playPlaylist (some ⟨.ok [⟨"d1", "Speaker", "t", true⟩], fun _ => .ok [],
        fun _ => .ok ⟨"P", 10⟩, fun _ _ _ => .ok (), .ok ()⟩) "" "x" true 1 3).fst =
      .ok "Now playing \"P\" on Speaker (shuffle enabled, starting at track 4 of 10)" := by
  have h := playShuffle_success
    ⟨.ok [⟨"d1", "Speaker", "t", true⟩], fun _ => .ok [], fun _ => .ok ⟨"P", 10⟩,
      fun _ _ _ => .ok (), .ok ()⟩
    "" "x" "x" ⟨"P", 10⟩ 1 3 9 ⟨"d1", "Speaker", "t", true⟩ []
    rfl (by decide) rfl rfl rfl
  exact ⟨h.1, h.2.trans (by decide)⟩

/-- C2 counterexample: a shuffle play against a 0-track playlist, with a
remote that accepts every playback command, panics locally in the
random-offset selection and never issues the start-playback command —
contradicting the claim that the command proceeds and only the remote
rejects it. -/
theorem playShuffle_zeroTracks_cex :
    playPlaylist (some ⟨.ok [⟨"d1", "Speaker", "t", true⟩], fun _ => .ok [],
        fun _ => .ok ⟨"Empty", 0⟩, fun _ _ _ => .ok (), .ok ()⟩) "" "x" true 1 0 =
      (.panic "invalid argument to Intn", [.getDevices, .listerCall 0, .getPlaylistInfo "x"]) ∧
    Action.playOpt "d1" "spotify:playlist:x" 0 ∉
      (playPlaylist (some ⟨.ok [⟨"d1", "Speaker", "t", true⟩], fun _ => .ok [],
        fun _ => .ok ⟨"Empty", 0⟩, fun _ _ _ => .ok (), .ok ()⟩) "" "x" true 1 0).snd := by
  decide

/-- C2 (amended): when shuffle is requested and the fetched track count is 0,
the random-offset selection itself faults locally (Go's rand.Intn panics for
a non-positive bound) and no start-playback command is ever issued; that
local panic — not a remote rejection — is the failure. -/
theorem playShuffle_zeroTracks (c : Client) (dn pi pid : String) (pl : Playlist)
    (fuel rnd : Nat) (d0 : PlayerDevice) (rest : List PlayerDevice)
    (hdev : c.devices = .ok (d0 :: rest))
    (hres : (resolvePlaylistIDQuiet fuel c.lister pi).result = some (.ok pid))
    (hget : c.getPlaylist pid = .ok pl)
    (htot : pl.total = 0) :
    (playPlaylist (some c) dn pi true fuel rnd).fst = .panic "invalid argument to Intn" ∧
      ∀ did uri pos, Action.playOpt did uri pos ∉ (playPlaylist (some c) dn pi true fuel rnd).snd := by
  constructor
  · simp [playPlaylist, hdev, hres, hget, htot]
  · intro did uri pos
    simp [playPlaylist, hdev, hres, hget, htot]

/-- C2 witness: the amended theorem applied to the concrete 0-track client. -/
theorem playShuffle_zeroTracks_witness :
    (playPlaylist (some ⟨.ok [⟨"d1", "Speaker", "t", true⟩], fun _ => .ok [],
        fun _ => .ok ⟨"Empty", 0⟩, fun _ _ _ => .ok (), .ok ()⟩) "" "y" true 1 0).fst =
      .panic "invalid argument to Intn" :=
  (playShuffle_zeroTracks
    ⟨.ok [⟨"d1", "Speaker", "t", true⟩], fun _ => .ok [], fun _ => .ok ⟨"Empty", 0⟩,
      fun _ _ _ => .ok (), .ok ()⟩
    "" "y" "y" ⟨"Empty", 0⟩ 1 0 ⟨"d1", "Speaker", "t", true⟩ []
    rfl (by decide) rfl rfl).1

/-- C10: the play handler checks the API access token before validating the
playlist parameter — a mismatched token always yields the 401 invalid-token
envelope, even when the playlist parameter is also missing, and a 400
response is only ever produced when the supplied token matches (and the
playlist parameter is empty). -/
theorem handlePlay_token_first (tok : String) (r : PlayRequest)
    (play : String → String → Bool → Except String String) :
    (requestToken r ≠ tok → handlePlayRequest tok r play =
        ⟨401, false, "", "Invalid or missing access token"⟩) ∧
      ((handlePlayRequest tok r play).status = 400 → requestToken r = tok ∧ r.playlist = "") := by
  constructor
  · intro h
    simp [handlePlayRequest, h]
  · intro h
    by_cases ht : requestToken r = tok
    · by_cases hp : r.playlist = ""
      · exact ⟨ht, hp⟩
      · exfalso
        simp only [handlePlayRequest, ht, ne_eq, not_true_eq_false, if_false, hp] at h
        cases hpm : play r.device r.playlist (toLowerStr r.shuffleStr == "true") with
        | error e => simp [hpm] at h
        | ok m => simp [hpm] at h
    · exfalso
      simp [handlePlayRequest, ht] at h

/-- C10 witness: a request with a wrong token and a missing playlist gets
401, not 400. -/
theorem handlePlay_token_first_witness :
    requestToken ⟨"wrong", "", "", "", ""⟩ ≠ "secret" ∧
    (⟨"wrong", "", "", "", ""⟩ : PlayRequest).playlist = "" ∧
    handlePlayRequest "secret" ⟨"wrong", "", "", "", ""⟩ (fun _ _ _ => .ok "m") =
      ⟨401, false, "", "Invalid or missing access token"⟩ :=
  ⟨by decide, rfl,
    (handlePlay_token_first "secret" ⟨"wrong", "", "", "", ""⟩ (fun _ _ _ => .ok "m")).1
      (by decide)⟩

end SpotifyShortcut
